import Mathlib

/-!
Verification development for `jgdv/structs/code_ref.py` (class `JGDVCodeReference`).

Python strings are modelled as `List Char`.  Machinery external to the file under
verification is modelled as follows:

* `doot.constants.patterns.IMPORT_SEP` / `TASK_SEP` (framework constants from the
  `doot` dependency) are the strings `":"` and `"::"`.
* The Python runtime (importable modules, `sys.modules`, live type objects and
  their attribute tables, `type()` synthesis) is an explicit state `PyEnv`;
  exceptions are an explicit `Except PyErr` result.
* The base class `StructuredName` (`jgdv/structs/name.py`) is not part of the
  sources; the pieces of it this file relies on (constructor normalisation,
  `subseparator`, equality over the rendered string form) are modelled from the
  spec and marked as such in their doc comments.
-/

/-- A Python string, modelled as its list of characters. -/
abbrev PyStr := List Char

/-- Python `s.split(sep)` for a single-character separator: splits at every
occurrence of the separator, keeping empty parts.  Always returns at least one
part. -/
def pySplit (sep : Char) : PyStr → List PyStr
  | [] => [[]]
  | a :: rest =>
    if a = sep then [] :: pySplit sep rest
    else
      match pySplit sep rest with
      | [] => [[a]]
      | p :: ps => (a :: p) :: ps

/-- Python `sep.join(parts)` for a single-character separator. -/
def pyJoin (sep : Char) : List PyStr → PyStr
  | [] => []
  | [p] => p
  | p :: q :: rest => p ++ sep :: pyJoin sep (q :: rest)

/-- Does `hay` start with `needle`? (helper for Python substring containment). -/
def strStarts : PyStr → PyStr → Bool
  | [], _ => true
  | _ :: _, [] => false
  | a :: as, b :: bs => a = b && strStarts as bs

/-- Python `needle in hay` substring containment. -/
def strHasSub (needle : PyStr) : PyStr → Bool
  | [] => strStarts needle []
  | c :: rest => strStarts needle (c :: rest) || strHasSub needle rest

theorem pySplit_ne_nil (sep : Char) (s : PyStr) : pySplit sep s ≠ [] := by
  cases s with
  | nil => simp [pySplit]
  | cons a rest =>
    simp only [pySplit]
    split
    · simp
    · split <;> simp

theorem pyJoin_pySplit (sep : Char) (s : PyStr) :
    pyJoin sep (pySplit sep s) = s := by
  induction s with
  | nil => simp [pySplit, pyJoin]
  | cons a rest ih =>
    simp only [pySplit]
    split
    · rename_i ha
      subst ha
      obtain ⟨p, ps, hps⟩ := List.exists_cons_of_ne_nil (pySplit_ne_nil a rest)
      rw [hps] at ih ⊢
      simp [pyJoin, ih]
    · obtain ⟨p, ps, hps⟩ := List.exists_cons_of_ne_nil (pySplit_ne_nil sep rest)
      rw [hps] at ih ⊢
      simp only []
      cases ps with
      | nil => simp_all [pyJoin]
      | cons q qs => simp_all [pyJoin]

theorem length_pySplit (sep : Char) (s : PyStr) :
    (pySplit sep s).length = s.count sep + 1 := by
  induction s with
  | nil => simp [pySplit]
  | cons a rest ih =>
    simp only [pySplit]
    split
    · rename_i ha
      subst ha
      simp [List.count_cons, ih]
    · rename_i ha
      obtain ⟨p, ps, hps⟩ := List.exists_cons_of_ne_nil (pySplit_ne_nil sep rest)
      rw [hps] at ih ⊢
      simp only []
      have : a ≠ sep := ha
      simp [List.count_cons, this, ← ih]

theorem not_mem_of_mem_pySplit (sep : Char) (s : PyStr) (p : PyStr)
    (hp : p ∈ pySplit sep s) : sep ∉ p := by
  induction s generalizing p with
  | nil => simp [pySplit] at hp; simp [hp]
  | cons a rest ih =>
    simp only [pySplit] at hp
    split at hp
    · rcases List.mem_cons.mp hp with h | h
      · simp [h]
      · exact ih p h
    · rename_i ha
      obtain ⟨q, qs, hqs⟩ := List.exists_cons_of_ne_nil (pySplit_ne_nil sep rest)
      rw [hqs] at hp ih
      rcases List.mem_cons.mp hp with h | h
      · subst h
        intro hmem
        rcases List.mem_cons.mp hmem with h | h
        · exact ha h.symm
        · exact ih q (List.mem_cons_self q qs) h
      · exact ih p (List.mem_cons.mpr (Or.inr h))

/-- When a string contains exactly one occurrence of the separator, splitting
yields exactly two parts, decomposing the string around that separator. -/
theorem pySplit_of_count_one (sep : Char) (s : PyStr) (h : s.count sep = 1) :
    ∃ a b, pySplit sep s = [a, b] ∧ s = a ++ sep :: b ∧ sep ∉ a ∧ sep ∉ b := by
  have hlen : (pySplit sep s).length = 2 := by rw [length_pySplit, h]
  obtain ⟨a, rest, hrest⟩ := List.exists_cons_of_ne_nil (pySplit_ne_nil sep s)
  rw [hrest] at hlen
  cases rest with
  | nil => simp at hlen
  | cons b tail =>
    cases tail with
    | nil =>
      refine ⟨a, b, hrest, ?_, ?_, ?_⟩
      · have := pyJoin_pySplit sep s
        rw [hrest] at this
        simpa [pyJoin] using this.symm
      · exact not_mem_of_mem_pySplit sep s a (hrest ▸ List.mem_cons_self a [b])
      · exact not_mem_of_mem_pySplit sep s b
          (hrest ▸ List.mem_cons.mpr (Or.inr (List.mem_cons_self b [])))
    | cons c tl => simp at hlen

/-- The kind of human-readable message carried by a raised exception; one
constructor per distinct message string appearing in `code_ref.py` (plus the
messages produced by the Python runtime itself). -/
inductive ErrMsg where
  | doubleSep       -- "Code References should use a single colon, not double"
  | cantSplit       -- "Code ref can't be split correctly, ensure its of the form x.y.z:ClassName"
  | moduleNotFound  -- "Module can't be found"
  | attemptedImport -- "Attempted to import %s but failed"
  | notCorrectType  -- "Imported Code Reference is not of correct type"
  | issubclassArg   -- TypeError: issubclass() arg 1 must be a class
  | basesNotClasses -- TypeError: bases of a synthesized type must be classes
  | duplicateBases  -- TypeError: duplicate base class
  | mroConflict     -- TypeError: Cannot create a consistent method resolution order (MRO)
deriving DecidableEq

/-- Python exceptions raised by the code under verification (`doot.errors`
classes and builtins), with their payloads. -/
inductive PyErr where
  | dootError (msg : ErrMsg)
  | dootConfigError (msg : ErrMsg) (arg : PyStr)
  | moduleNotFoundError (modName : PyStr)
  | attributeError (attr : PyStr)
  | importError (msg : ErrMsg) (args : List PyStr)
  | typeError (msg : ErrMsg)
  | nameError (varName : PyStr)
deriving DecidableEq

/-- A Python runtime value, as far as the resolver observes it: a module object
(identified by its name), a class object (identified by an id into the
environment's type table), or any other object (with an identity and the id of
its class, for `isinstance` checks). -/
inductive PyObj where
  | module (modName : PyStr)
  | type (id : Nat)
  | other (oid : Nat) (cls : Nat)
deriving DecidableEq

/-- The data the resolver reads off a live class object: `__name__`,
`__module__`, `__bases__`, its method resolution order (a list of type ids,
starting with the type itself), and its attribute dictionary. -/
structure PyTypeInfo where
  tname : PyStr
  tmodule : PyStr
  bases : List Nat
  mro : List Nat
  attrs : List (PyStr × PyObj)
deriving DecidableEq

/-- The Python runtime state the resolver interacts with: the set of importable
module definitions (name to attribute dictionary), the `sys.modules` cache,
a log of module-body executions (the spec's sentinel import counter), the table
of live class objects, and a fresh-id counter for `type()` synthesis. -/
structure PyEnv where
  moduleDefs : List (PyStr × List (PyStr × PyObj))
  sysModules : List PyStr
  execLog : List PyStr
  types : List (Nat × PyTypeInfo)
  nextId : Nat
deriving DecidableEq

/-- Association-list lookup by key (first match wins, as in a Python dict view). -/
def assocFind {α : Type} (key : PyStr) : List (PyStr × α) → Option α
  | [] => none
  | (k, v) :: rest => if k = key then some v else assocFind key rest

/-- Lookup of a live class object by id in the environment's type table. -/
def lookupType (env : PyEnv) (i : Nat) : Option PyTypeInfo :=
  go env.types
where
  go : List (Nat × PyTypeInfo) → Option PyTypeInfo
    | [] => none
    | (k, v) :: rest => if k = i then some v else go rest

/-- The mro of the class with id `i`, as recorded in the environment
(empty when the id is dangling). -/
def mroOf (env : PyEnv) (i : Nat) : List Nat :=
  match lookupType env i with
  | some t => t.mro
  | none => []

/-- The `__name__` of the class with id `i`. -/
def typeNameOf (env : PyEnv) (i : Nat) : PyStr :=
  match lookupType env i with
  | some t => t.tname
  | none => []

/-- The `__module__` of the class with id `i`. -/
def typeModuleOf (env : PyEnv) (i : Nat) : PyStr :=
  match lookupType env i with
  | some t => t.tmodule
  | none => []

/-- The `__name__` attribute of an object, as read by the f-string in
`try_import` (modules and classes carry one; for other objects the lookup is
modelled as empty rather than as an attribute error, a simplification that no
claim depends on). -/
def pyNameOf (env : PyEnv) : PyObj → PyStr
  | .module m => m
  | .type i => typeNameOf env i
  | .other _ _ => []

/-- Framework constant `doot.constants.patterns.IMPORT_SEP` (the default of the
`separator` field): a single colon. -/
def IMPORT_SEP : PyStr := [':']

/-- Framework constant `doot.constants.patterns.TASK_SEP` (the reserved
double-separator distinguishing task syntax): a double colon. -/
def TASK_SEP : PyStr := [':', ':']

/-- Modelled from the spec: the `subseparator` field of the base class
`StructuredName` (`jgdv/structs/name.py`, absent from the sources), used between
segments when rendering; the spec renders both paths dot-joined. -/
def SUB_SEP : Char := '.'

/-- The `JGDVCodeReference` dataclass: `head` and `tail` are the inherited
segment sequences of `StructuredName`, `mixins` is the `_mixins` field and
`ty` the `_type` cache field (a class id, `None` initially).  The `separator`
and `subseparator` fields are never set away from their defaults by the code
under verification and are modelled as the constants above. -/
inductive JGDVCodeReference where
  | mk (head : List PyStr) (tail : List PyStr)
       (mixins : List JGDVCodeReference) (ty : Option Nat)

/-- The `head` field (module path segments). -/
def JGDVCodeReference.head : JGDVCodeReference → List PyStr
  | .mk h _ _ _ => h

/-- The `tail` field (attribute path segments). -/
def JGDVCodeReference.tail : JGDVCodeReference → List PyStr
  | .mk _ t _ _ => t

/-- The `_mixins` field. -/
def JGDVCodeReference.mixins : JGDVCodeReference → List JGDVCodeReference
  | .mk _ _ ms _ => ms

/-- The `_type` field (cached resolved class id). -/
def JGDVCodeReference.ty : JGDVCodeReference → Option Nat
  | .mk _ _ _ t => t

/-- Property `module`: the sub-separator join of the head segments. -/
def JGDVCodeReference.moduleStr (r : JGDVCodeReference) : PyStr :=
  pyJoin SUB_SEP r.head

/-- Property `value`: the sub-separator join of the tail segments. -/
def JGDVCodeReference.valueStr (r : JGDVCodeReference) : PyStr :=
  pyJoin SUB_SEP r.tail

/-- Rendering `__str__`: module, separator, value. -/
def strOf (r : JGDVCodeReference) : PyStr :=
  r.moduleStr ++ IMPORT_SEP ++ r.valueStr

/-- Modelled from the spec: equality of references (`StructuredName.__eq__`,
absent from the sources) is defined solely over the rendered string form. -/
def refEq (a b : JGDVCodeReference) : Bool :=
  decide (strOf a = strOf b)

/-- Modelled from the spec: `StructuredName.__init__` (absent from the sources)
accepts a raw dotted string for a path argument and normalises it into its
segment sequence; the spec describes `head`/`tail` as segment sequences whose
rendering is the dot-joined form. -/
def strSegs (s : PyStr) : List PyStr :=
  pySplit SUB_SEP s

/-- Classmethod `_from_str` (`code_ref.py` lines 71-87).  The no-colon branch
passes `None` as head and the whole string as tail, normalised per `strSegs`. -/
def _from_str (name : PyStr) : Except PyErr JGDVCodeReference :=
  if strHasSub TASK_SEP name then
    .error (.dootError .doubleSep)
  else if ':' ∈ name then
    match pySplit ':' name with
    | [groupHead_r, taskHead_r] =>
        .ok (.mk (pySplit SUB_SEP groupHead_r) (pySplit SUB_SEP taskHead_r) [] none)
    | _ => .error (.dootConfigError .cantSplit name)
  else
    .ok (.mk [] (strSegs name) [] none)

/-- The `type()` branch of classmethod `build` (lines 59-63): head from
`__module__`, tail from `__name__`, `_type` cached immediately. -/
def buildFromType (env : PyEnv) (t : Nat) : JGDVCodeReference :=
  .mk (strSegs (typeModuleOf env t)) (strSegs (typeNameOf env t)) [] (some t)

/-- A plugin/entry-point descriptor (`importlib.metadata.EntryPoint`):
`name`, `value`, `group`, and the class id its `load()` would return. -/
structure PyEntryPoint where
  epName : PyStr
  epValue : PyStr
  epGroup : PyStr
  epTarget : Nat
deriving DecidableEq

/-- The possible arguments of classmethod `build`. -/
inductive BuildArg where
  | str (s : PyStr)
  | pytype (t : Nat)
  | entryPoint (e : PyEntryPoint)

/-- Classmethod `build` (lines 54-69).  In the `EntryPoint` branch the source
(line 65) evaluates `ctor.load()`, but no name `ctor` is bound anywhere in the
function (its parameter is `name`), so Python raises `NameError: name 'ctor' is
not defined` before anything is loaded. -/
def build (env : PyEnv) : BuildArg → Except PyErr JGDVCodeReference
  | .str s => _from_str s
  | .pytype t => .ok (buildFromType env t)
  | .entryPoint _ => .error (.nameError ('c' :: 't' :: 'o' :: 'r' :: []))

/-- A record of a plugins table group, exposing `.name` and `.value`. -/
structure Record where
  rname : PyStr
  rvalue : PyStr
deriving DecidableEq

/-- The plugins table (`TomlGuard`): group name to sequence of records. -/
abbrev Plugins := List (PyStr × List Record)

/-- Group lookup in the plugins table (`group in plugins`, `plugins[group]`). -/
def lookupGroup (plugins : Plugins) (group : PyStr) : Option (List Record) :=
  match plugins with
  | [] => none
  | (g, rs) :: rest => if g = group then some rs else lookupGroup rest group

/-- Static method `from_alias` (lines 89-97); `aliasArg` is the `alias`
parameter. -/
def from_alias (aliasArg group : PyStr) (plugins : Plugins) :
    Except PyErr JGDVCodeReference :=
  match lookupGroup plugins group with
  | none => _from_str aliasArg
  | some recs =>
    match recs.filter (fun x => decide (x.rname = aliasArg)) with
    | x :: _ => _from_str x.rvalue
    | [] => _from_str aliasArg

/-- `importlib.import_module`: returns the cached module object when the name
is already in `sys.modules`; otherwise, when the module is importable, executes
its body (logged) and caches it; otherwise raises `ModuleNotFoundError`. -/
def importModule (env : PyEnv) (modName : PyStr) :
    Except PyErr (PyObj × PyEnv) :=
  if modName ∈ env.sysModules then
    .ok (.module modName, env)
  else
    match assocFind modName env.moduleDefs with
    | some _ =>
      .ok (.module modName,
           { env with sysModules := modName :: env.sysModules,
                      execLog := env.execLog ++ [modName] })
    | none => .error (.moduleNotFoundError modName)

/-- `getattr(obj, attr)`: attribute lookup on a module object or a class object
(class attribute lookup is modelled on the class's own dictionary; inherited
attributes are not modelled, which no claim depends on).  Other objects carry
no attributes in this model. -/
def getattrOne (env : PyEnv) (o : PyObj) (attr : PyStr) : Except PyErr PyObj :=
  match o with
  | .module m =>
    match assocFind m env.moduleDefs with
    | some attrs =>
      match assocFind attr attrs with
      | some v => .ok v
      | none => .error (.attributeError attr)
    | none => .error (.attributeError attr)
  | .type i =>
    match lookupType env i with
    | some info =>
      match assocFind attr info.attrs with
      | some v => .ok v
      | none => .error (.attributeError attr)
    | none => .error (.attributeError attr)
  | .other _ _ => .error (.attributeError attr)

/-- The `for name in self.tail: curr = getattr(curr, name)` loop of
`try_import` (lines 147-148).  Pure: it never changes the environment. -/
def getattrWalk (env : PyEnv) (o : PyObj) : List PyStr → Except PyErr PyObj
  | [] => .ok o
  | attr :: rest =>
    match getattrOne env o attr with
    | .ok v => getattrWalk env v rest
    | .error e => .error e

/-- Lines 142-148 of `try_import`: use the cached `_type` when present,
otherwise import the module and walk the attribute path. -/
def resolveTarget (r : JGDVCodeReference) (env : PyEnv) :
    Except PyErr (PyObj × PyEnv) :=
  match r.ty with
  | some t => .ok (.type t, env)
  | none =>
    match importModule env r.moduleStr with
    | .error e => .error e
    | .ok (modObj, env₁) =>
      match getattrWalk env₁ modObj r.tail with
      | .ok v => .ok (v, env₁)
      | .error e => .error e

/-- The class id of an object when it is a class object. -/
def typeIdOf : PyObj → Option Nat
  | .type i => some i
  | _ => none

/-- The class ids of a list of objects, when all of them are class objects. -/
def allTypeIds : List PyObj → Option (List Nat)
  | [] => some []
  | o :: rest =>
    match typeIdOf o, allTypeIds rest with
    | some i, some is => some (i :: is)
    | _, _ => none

/-- The generated-name marker of line 158: `"DootGenerated:"`. -/
def GEN_MARK : PyStr :=
  ('D' :: 'o' :: 'o' :: 't' :: 'G' :: 'e' :: 'n' :: 'e' :: 'r' :: 'a' :: 't'
     :: 'e' :: 'd' :: ':' :: [])

/-- Is `x` in the tail (everything after the head) of any of the sequences?
(The C3 candidate test: a head may be taken only when no sequence still lists
it as a non-head, i.e. as someone's ancestor.) -/
def inTailOfAny (x : Nat) (seqs : List (List Nat)) : Bool :=
  seqs.any (fun s => decide (x ∈ s.tail))

/-- Scan the sequences in order and return the head of the first one whose
head passes the C3 candidate test against all of `seqs`; `none` when no head
qualifies (an inconsistent hierarchy). -/
def c3PickHead (seqs : List (List Nat)) : List (List Nat) → Option Nat
  | [] => none
  | s :: rest =>
    match s with
    | [] => c3PickHead seqs rest
    | h :: _ => if inTailOfAny h seqs then c3PickHead seqs rest else some h

/-- Remove the chosen class from every sequence and drop emptied sequences
(the chosen head occurs only as a head, so this removes exactly the heads). -/
def c3Remove (x : Nat) (seqs : List (List Nat)) : List (List Nat) :=
  (seqs.map (fun s => s.filter (fun y => decide (y ≠ x)))).filter
    (fun s => decide (s ≠ []))

/-- The C3 merge loop with explicit fuel (each successful step removes at
least one element from the sequences, so any fuel exceeding the total number
of elements makes the fuel-exhaustion branch unreachable). -/
def c3MergeFuel : Nat → List (List Nat) → Option (List Nat)
  | _, [] => some []
  | 0, _ :: _ => none
  | fuel + 1, s :: rest =>
    match c3PickHead (s :: rest) (s :: rest) with
    | none => none
    | some h =>
      match c3MergeFuel fuel (c3Remove h (s :: rest)) with
      | none => none
      | some out => some (h :: out)

/-- C3 linearization merge of the given sequences, as performed by CPython's
`type()` for a new class: `none` models `TypeError: Cannot create a consistent
method resolution order (MRO)`. -/
def c3Merge (seqs : List (List Nat)) : Option (List Nat) :=
  c3MergeFuel ((seqs.map List.length).sum + 1)
    (seqs.filter (fun s => decide (s ≠ [])))

/-- Does the list repeat an element? (CPython's duplicate-base check.) -/
def hasDupB : List Nat → Bool
  | [] => false
  | x :: rest => decide (x ∈ rest) || hasDupB rest

/-- Line 158: `type(f"DootGenerated:{curr.__name__}", tuple(mixins + [curr]), {})`.
Synthesizes a fresh class object whose bases are the given objects in order.
As in CPython, `type()` raises `TypeError` when a base is not a class, when a
base is duplicated, or when the C3 merge of the bases' linearizations (plus
the bases list itself) is inconsistent — e.g. a base listed before its own
subclass.  On success the new class's mro is its id followed by the merge. -/
def synthType (env : PyEnv) (ms : List PyObj) (curr : PyObj) :
    Except PyErr (PyObj × PyEnv) :=
  match allTypeIds (ms ++ [curr]) with
  | none => .error (.typeError .basesNotClasses)
  | some bs =>
    if hasDupB bs then .error (.typeError .duplicateBases)
    else
      match c3Merge (bs.map (mroOf env) ++ [bs]) with
      | none => .error (.typeError .mroConflict)
      | some lin =>
        let newId := env.nextId
        let info : PyTypeInfo :=
          { tname := GEN_MARK ++ pyNameOf env curr,
            tmodule := [],
            bases := bs,
            mro := newId :: lin,
            attrs := [] }
        .ok (.type newId,
             { env with nextId := newId + 1,
                        types := env.types ++ [(newId, info)] })

/-- `isinstance(o, ensureCls)`: whether the class of `o` has `ensureCls` in its
mro.  A class object or a module is not an instance of an (ordinary) class;
metaclass instance checks are not modelled, which no claim depends on. -/
def isinstanceB (env : PyEnv) (o : PyObj) (ensureCls : Nat) : Bool :=
  match o with
  | .other _ cls => decide (ensureCls ∈ mroOf env cls)
  | _ => false

/-- `issubclass(o, ensureCls)`: mro membership when `o` is a class object;
Python raises `TypeError: issubclass() arg 1 must be a class` otherwise. -/
def issubclassE (env : PyEnv) (o : PyObj) (ensureCls : Nat) :
    Except PyErr Bool :=
  match o with
  | .type i => .ok (decide (ensureCls ∈ mroOf env i))
  | _ => .error (.typeError .issubclassArg)

/-- Lines 160-161 of `try_import`: the `ensure` capability check (`none`
models the default `ensure=Any`). -/
def ensureCheck (env : PyEnv) (curr : PyObj) (ensure : Option Nat)
    (selfStr : PyStr) : Except PyErr PyObj :=
  match ensure with
  | none => .ok curr
  | some e =>
    if isinstanceB env curr e then .ok curr
    else
      match issubclassE env curr e with
      | .error err => .error err
      | .ok true => .ok curr
      | .ok false =>
        .error (.importError .notCorrectType [selfStr, typeNameOf env e])

/-- The `except` clauses of `try_import` (lines 164-167): a
`ModuleNotFoundError` or `AttributeError` escaping the `try` block is re-raised
as an `ImportError` carrying `str(self)`; every other outcome passes through. -/
def catchImport {α : Type} (selfStr : PyStr) :
    Except PyErr α → Except PyErr α
  | .error (.moduleNotFoundError _) => .error (.importError .moduleNotFound [selfStr])
  | .error (.attributeError _) => .error (.importError .attemptedImport [selfStr])
  | r => r

mutual

/-- Method `try_import` (lines 140-167); `ensure = none` models the default
`ensure=Any`.  All exception flow is explicit: the body resolves the target,
synthesizes the composite type when `_mixins` is non-empty, applies the
`ensure` check, and the surrounding handler re-raises module/attribute errors
as import errors. -/
def try_import (r : JGDVCodeReference) (ensure : Option Nat) (env : PyEnv) :
    Except PyErr (PyObj × PyEnv) :=
  match r with
  | .mk head tail mxs ty =>
    catchImport (strOf (.mk head tail mxs ty))
      (match resolveTarget (.mk head tail mxs ty) env with
       | .error e => .error e
       | .ok (curr, env₁) =>
         match
           (if mxs.isEmpty then Except.ok (curr, env₁)
            else
              match try_import_list mxs env₁ with
              | .error e => Except.error e
              | .ok (objs, env₂) => synthType env₂ objs curr) with
         | .error e => .error e
         | .ok (curr₂, env₂) =>
           match ensureCheck env₂ curr₂ ensure (strOf (.mk head tail mxs ty)) with
           | .error e => .error e
           | .ok v => .ok (v, env₂))

/-- The mixin resolution loop of lines 151-157: each element of `_mixins` is a
`JGDVCodeReference` and is resolved with `mix.try_import()` (default `ensure`);
the `case type()` arm of the source is unreachable because the `_mixins` field
holds references only. -/
def try_import_list (rs : List JGDVCodeReference) (env : PyEnv) :
    Except PyErr (List PyObj × PyEnv) :=
  match rs with
  | [] => .ok ([], env)
  | m :: rest =>
    match try_import m none env with
    | .error e => .error e
    | .ok (v, env₁) =>
      match try_import_list rest env₁ with
      | .error e => .error e
      | .ok (vs, env₂) => .ok (v :: vs, env₂)

end

/-- The stage of `try_import` before the `ensure` check (lines 142-158),
factored out for stating theorems: resolve the target, then synthesize the
composite when `_mixins` is non-empty. -/
def resolveFull (r : JGDVCodeReference) (env : PyEnv) :
    Except PyErr (PyObj × PyEnv) :=
  match resolveTarget r env with
  | .error e => .error e
  | .ok (curr, env₁) =>
    if r.mixins.isEmpty then .ok (curr, env₁)
    else
      match try_import_list r.mixins env₁ with
      | .error e => .error e
      | .ok (objs, env₂) => synthType env₂ objs curr

theorem try_import_eq (r : JGDVCodeReference) (ensure : Option Nat)
    (env : PyEnv) :
    try_import r ensure env =
      catchImport (strOf r)
        (match resolveFull r env with
         | .error e => .error e
         | .ok (curr₂, env₂) =>
           match ensureCheck env₂ curr₂ ensure (strOf r) with
           | .error e => .error e
           | .ok v => .ok (v, env₂)) := by
  obtain ⟨head, tail, mxs, ty⟩ := r
  rw [try_import]
  simp only [resolveFull, JGDVCodeReference.mixins]
  rcases h : resolveTarget (.mk head tail mxs ty) env with e | ⟨curr, env₁⟩
  · rfl
  · by_cases hm : mxs.isEmpty <;> simp [hm]

/-- The plugin group name `"mixin"` (singular) used by the alias lookup inside
`add_mixins` (line 128) — distinct from the `"mixins"` group used by
`to_aliases`. -/
def MIXIN_GROUP : PyStr := ('m' :: 'i' :: 'x' :: 'i' :: 'n' :: [])

/-- The possible elements of the `*mixins` argument of `add_mixins`: a
reference, a string, or a live type. -/
inductive MixArg where
  | ref (r : JGDVCodeReference)
  | str (s : PyStr)
  | pytype (t : Nat)

/-- The `match mix` conversion inside `add_mixins` (lines 123-132): a reference
is used as is; a string goes through alias lookup in group `"mixin"` when a
plugins table was supplied, else through `build`; a live type goes through
`build`.  (The `case _` `TypeError` arm is unreachable here because `MixArg`
enumerates exactly the accepted argument types.) -/
def convMixin (env : PyEnv) (plugins : Option Plugins) :
    MixArg → Except PyErr JGDVCodeReference
  | .ref r => .ok r
  | .str s =>
    match plugins with
    | some p => from_alias s MIXIN_GROUP p
    | none => _from_str s
  | .pytype t => .ok (buildFromType env t)

/-- The accumulation loop of `add_mixins` (lines 123-135): convert each
argument and append it to `to_add` unless an equal reference (Python `in`,
i.e. `__eq__` over the rendered string form) is already there. -/
def addMixinsLoop (env : PyEnv) (plugins : Option Plugins)
    (toAdd : List JGDVCodeReference) :
    List MixArg → Except PyErr (List JGDVCodeReference)
  | [] => .ok toAdd
  | a :: rest =>
    match convMixin env plugins a with
    | .error e => .error e
    | .ok ref =>
      addMixinsLoop env plugins
        (if toAdd.any (fun x => refEq x ref) then toAdd else toAdd ++ [ref]) rest

/-- Method `add_mixins` (lines 121-138): returns a new reference with the same
`head`, `tail` and `_type` and the accumulated mixin list. -/
def add_mixins (r : JGDVCodeReference) (args : List MixArg)
    (plugins : Option Plugins) (env : PyEnv) :
    Except PyErr JGDVCodeReference :=
  match addMixinsLoop env plugins r.mixins args with
  | .error e => .error e
  | .ok toAdd => .ok (.mk r.head r.tail toAdd r.ty)

/-- Conversion of a whole argument list (environment and plugins are read-only
throughout, so no state threading is needed). -/
def convAll (env : PyEnv) (plugins : Option Plugins) :
    List MixArg → Except PyErr (List JGDVCodeReference)
  | [] => .ok []
  | a :: rest =>
    match convMixin env plugins a with
    | .error e => .error e
    | .ok r =>
      match convAll env plugins rest with
      | .error e => .error e
      | .ok rs => .ok (r :: rs)

/-- The claim-side description of the mixins appended by `add_mixins`: of the
supplied (converted) mixins, exactly those not already present by value in the
base list or among the ones kept so far, in order. -/
def newMixinsSpec (base : List JGDVCodeReference) :
    List JGDVCodeReference → List JGDVCodeReference
  | [] => []
  | x :: rest =>
    if base.any (fun b => refEq b x) then newMixinsSpec base rest
    else x :: newMixinsSpec (base ++ [x]) rest

/-- Single step of applying `add_mixins` with one already-converted mixin:
append it unless an equal one is present (used to state the alias-lookup
claim). -/
def appendMixin (r : JGDVCodeReference) (m : JGDVCodeReference) :
    JGDVCodeReference :=
  .mk r.head r.tail
    (if r.mixins.any (fun x => refEq x m) then r.mixins else r.mixins ++ [m])
    r.ty

/-- Stable insertion into an ascending-by-key list (equal keys: the inserted
element, which came earlier in the original list, stays first). -/
def insertAscBy (key : Nat → Nat) (x : Nat) : List Nat → List Nat
  | [] => [x]
  | y :: ys => if key x ≤ key y then x :: y :: ys else y :: insertAscBy key x ys

/-- Stable ascending sort by key, modelling Python's stable `sorted`. -/
def sortAscBy (key : Nat → Nat) : List Nat → List Nat
  | [] => []
  | x :: xs => insertAscBy key x (sortAscBy key xs)

/-- The greedy selection loop of `_calculate_minimal_mixins` (lines 183-190):
`found` accumulates the mros of the selected classes; a class already in
`found` is skipped. -/
def greedyMinimal (env : PyEnv) (found : List Nat) :
    List Nat → List Nat
  | [] => []
  | t :: rest =>
    if t ∈ found then greedyMinimal env found rest
    else t :: greedyMinimal env (found ++ mroOf env t) rest

/-- Method `_calculate_minimal_mixins` (lines 182-192): resolve every mixin,
sort the resulting classes ascending by mro length and iterate in reverse
(descending) order, greedily keeping the ones not yet covered, and convert the
kept classes back into references via `build`.  Applying `len(x.mro())` to a
resolved object that is not a class raises `AttributeError` (uncaught here). -/
def _calculate_minimal_mixins (r : JGDVCodeReference) (env : PyEnv) :
    Except PyErr (List JGDVCodeReference × PyEnv) :=
  match try_import_list r.mixins env with
  | .error e => .error e
  | .ok (objs, env') =>
    match allTypeIds objs with
    | none => .error (.attributeError ('m' :: 'r' :: 'o' :: []))
    | some ids =>
      let ordered :=
        (sortAscBy (fun i => (mroOf env' i).length) ids).reverse
      .ok ((greedyMinimal env' [] ordered).map (buildFromType env'), env')

/-- The claim-side skip condition: a mixin is dropped exactly when its entire
ancestor set (mro) is already covered by the ancestor set of a previously
selected mixin. -/
def greedyCoverSpec (env : PyEnv) (sel : List Nat) :
    List Nat → List Nat
  | [] => []
  | t :: rest =>
    if sel.any (fun s => (mroOf env t).all (fun u => decide (u ∈ mroOf env s)))
    then greedyCoverSpec env sel rest
    else t :: greedyCoverSpec env (sel ++ [t]) rest

/-- Well-formedness of the recorded mros: every class is in its own mro, and
the mro relation is transitively closed (each ancestor's mro is contained in
the descendant's), as is true of Python's `mro()`. -/
def mroWF (env : PyEnv) : Prop :=
  (∀ i, (lookupType env i).isSome → i ∈ mroOf env i) ∧
  (∀ i j, j ∈ mroOf env i → ∀ k, k ∈ mroOf env j → k ∈ mroOf env i)

/-- The spec's single "configuration error" category (spec section 7) for
construction-time failures covers both `doot.errors` classes raised by
`_from_str`. -/
def isConstructionErr : PyErr → Bool
  | .dootError _ => true
  | .dootConfigError _ _ => true
  | _ => false

/-- C3: for every string with exactly one colon and no double-separator token,
construction splits the part before the colon on "." into the module path and
the part after on "." into the attribute path, and rendering the constructed
reference yields back the identical input string. -/
theorem from_str_single_colon_roundtrip (s : PyStr)
    (hcount : s.count ':' = 1)
    (hdouble : strHasSub TASK_SEP s = false) :
    ∃ a b, s = a ++ ':' :: b ∧ ':' ∉ a ∧ ':' ∉ b ∧
      _from_str s = .ok (.mk (pySplit '.' a) (pySplit '.' b) [] none) ∧
      strOf (.mk (pySplit '.' a) (pySplit '.' b) [] none) = s := by
  obtain ⟨a, b, hsplit, hdecomp, ha, hb⟩ := pySplit_of_count_one ':' s hcount
  have hmem : ':' ∈ s := by rw [hdecomp]; simp
  refine ⟨a, b, hdecomp, ha, hb, ?_, ?_⟩
  · simp only [_from_str, hdouble, Bool.false_eq_true, if_false, hmem, if_true,
      hsplit, SUB_SEP]
  · simp only [strOf, JGDVCodeReference.moduleStr, JGDVCodeReference.valueStr,
      JGDVCodeReference.head, JGDVCodeReference.tail, SUB_SEP, IMPORT_SEP,
      pyJoin_pySplit]
    rw [hdecomp]
    simp

/-- Witness for C3 at the input "a.b:C.d". -/
theorem from_str_single_colon_roundtrip_witness :
    ∃ a b, "a.b:C.d".data = a ++ ':' :: b ∧ ':' ∉ a ∧ ':' ∉ b ∧
      _from_str "a.b:C.d".data =
        .ok (.mk (pySplit '.' a) (pySplit '.' b) [] none) ∧
      strOf (.mk (pySplit '.' a) (pySplit '.' b) [] none) = "a.b:C.d".data :=
  from_str_single_colon_roundtrip "a.b:C.d".data (by decide) (by decide)

/-- C4: for every input string without a colon (and without the
double-separator token), construction succeeds with an empty module path, and
the attribute path renders back to the entire input string. -/
theorem from_str_no_colon (s : PyStr)
    (hc : ':' ∉ s) (hd : strHasSub TASK_SEP s = false) :
    _from_str s = .ok (.mk [] (strSegs s) [] none) ∧
    pyJoin SUB_SEP (strSegs s) = s := by
  constructor
  · simp only [_from_str, hd, Bool.false_eq_true, if_false, hc]
  · exact pyJoin_pySplit SUB_SEP s

/-- Witness for C4 at the input "C.d". -/
theorem from_str_no_colon_witness :
    _from_str "C.d".data = .ok (.mk [] (strSegs "C.d".data) [] none) ∧
    pyJoin SUB_SEP (strSegs "C.d".data) = "C.d".data :=
  from_str_no_colon "C.d".data (by decide) (by decide)

/-- C8: construction from string fails, producing no reference, with a
construction-time (configuration) error when the string contains the reserved
double-separator token or contains a colon whose split does not yield exactly
two parts.  (Spec section 7 groups the two raises, `DootError` and
`DootConfigError`, into its single "configuration error" category.) -/
theorem from_str_malformed_errors (s : PyStr)
    (h : strHasSub TASK_SEP s = true ∨
         (':' ∈ s ∧ (pySplit ':' s).length ≠ 2)) :
    ∃ e, _from_str s = .error e ∧ isConstructionErr e = true := by
  by_cases hd : strHasSub TASK_SEP s = true
  · exact ⟨.dootError .doubleSep, by simp [_from_str, hd], rfl⟩
  · rcases h with h | ⟨hc, hlen⟩
    · exact absurd h hd
    · refine ⟨.dootConfigError .cantSplit s, ?_, rfl⟩
      have hd' : strHasSub TASK_SEP s = false := by
        simpa using hd
      simp only [_from_str, hd', Bool.false_eq_true, if_false, hc, if_true]
      obtain ⟨a, rest, hrest⟩ := List.exists_cons_of_ne_nil (pySplit_ne_nil ':' s)
      rw [hrest] at hlen ⊢
      cases rest with
      | nil => rfl
      | cons b tl =>
        cases tl with
        | nil => simp at hlen
        | cons c tl2 => rfl

/-- Witness for C8 at the input "a:b:c" (a colon-split of three parts). -/
theorem from_str_malformed_errors_witness :
    ∃ e, _from_str "a:b:c".data = .error e ∧ isConstructionErr e = true :=
  from_str_malformed_errors "a:b:c".data (Or.inr ⟨by decide, by decide⟩)

/-- A minimal runtime environment for exercising `build` on an entry point. -/
def envEP : PyEnv :=
  { moduleDefs := [], sysModules := [], execLog := [],
    types := [(0, { tname := ['T'], tmodule := ['p'], bases := [], mro := [0],
                    attrs := [] })],
    nextId := 1 }

/-- An entry-point descriptor whose `load()` would return class 0. -/
def epEP : PyEntryPoint :=
  { epName := ['T'], epValue := ['p', ':', 'T'], epGroup := ['g'], epTarget := 0 }

/-- C9: the claim says `build` on an entry-point-like object loads the target
eagerly and caches it; the code (line 65) instead evaluates `ctor.load()` where
no name `ctor` is bound (the parameter is `name`), so every entry-point build
raises `NameError: name 'ctor' is not defined` and nothing is loaded. -/
theorem build_entrypoint_raises_nameerror :
    build envEP (.entryPoint epEP) =
      .error (.nameError ('c' :: 't' :: 'o' :: 'r' :: [])) := rfl

theorem refEq_refl (x : JGDVCodeReference) : refEq x x = true := by
  simp [refEq]

theorem addMixinsLoop_eq_of_convAll (env : PyEnv) (p : Option Plugins)
    (args : List MixArg) (refs : List JGDVCodeReference)
    (base : List JGDVCodeReference)
    (h : convAll env p args = .ok refs) :
    addMixinsLoop env p base args = .ok (base ++ newMixinsSpec base refs) := by
  induction args generalizing refs base with
  | nil =>
    simp only [convAll] at h
    cases h
    simp [addMixinsLoop, newMixinsSpec]
  | cons a rest ih =>
    simp only [convAll] at h
    rcases hc : convMixin env p a with e | r
    · rw [hc] at h; exact absurd h (by simp)
    · rw [hc] at h
      rcases hr : convAll env p rest with e | rs
      · rw [hr] at h; exact absurd h (by simp)
      · rw [hr] at h
        cases h
        simp only [addMixinsLoop, hc, newMixinsSpec]
        by_cases hin : base.any (fun x => refEq x r) = true
        · rw [if_pos hin, if_pos (by simpa using hin)]
          exact ih rs base hr
        · rw [if_neg hin, if_neg (by simpa using hin)]
          rw [ih rs (base ++ [r]) hr]
          simp

theorem newMixinsSpec_nodup (refs : List JGDVCodeReference)
    (base : List JGDVCodeReference)
    (h : List.Pairwise (fun a b => refEq a b = false) base) :
    List.Pairwise (fun a b => refEq a b = false)
      (base ++ newMixinsSpec base refs) := by
  induction refs generalizing base with
  | nil => simpa [newMixinsSpec]
  | cons x rest ih =>
    simp only [newMixinsSpec]
    by_cases hin : base.any (fun b => refEq b x) = true
    · rw [if_pos hin]
      exact ih base h
    · rw [if_neg hin]
      have hstep : base ++ x :: newMixinsSpec (base ++ [x]) rest =
          (base ++ [x]) ++ newMixinsSpec (base ++ [x]) rest := by simp
      rw [hstep]
      apply ih
      rw [List.pairwise_append]
      refine ⟨h, by simp, ?_⟩
      intro a ha b hb
      simp only [List.mem_singleton] at hb
      subst hb
      have := List.any_eq_true.not.mp hin
      push_neg at this
      have h2 := this a ha
      simpa using h2

theorem newMixinsSpec_present (refs : List JGDVCodeReference)
    (base : List JGDVCodeReference) (x : JGDVCodeReference) (hx : x ∈ refs) :
    ∃ b ∈ base ++ newMixinsSpec base refs, refEq b x = true := by
  induction refs generalizing base with
  | nil => simp at hx
  | cons y rest ih =>
    simp only [newMixinsSpec]
    rcases List.mem_cons.mp hx with h | h
    · subst h
      by_cases hin : base.any (fun b => refEq b x) = true
      · rw [if_pos hin]
        obtain ⟨b, hb, hbe⟩ := List.any_eq_true.mp hin
        exact ⟨b, List.mem_append.mpr (Or.inl hb), hbe⟩
      · rw [if_neg hin]
        exact ⟨x, by simp, refEq_refl x⟩
    · by_cases hin : base.any (fun b => refEq b y) = true
      · rw [if_pos hin]
        exact ih base h
      · rw [if_neg hin]
        obtain ⟨b, hb, hbe⟩ := ih (base ++ [y]) h
        refine ⟨b, ?_, hbe⟩
        rcases List.mem_append.mp hb with h2 | h2
        · rcases List.mem_append.mp h2 with h3 | h3
          · exact List.mem_append.mpr (Or.inl h3)
          · simp only [List.mem_singleton] at h3
            subst h3
            simp
        · simp [h2]

theorem newMixinsSpec_nil_of_present (refs : List JGDVCodeReference)
    (base : List JGDVCodeReference)
    (h : ∀ x ∈ refs, ∃ b ∈ base, refEq b x = true) :
    newMixinsSpec base refs = [] := by
  induction refs with
  | nil => rfl
  | cons x rest ih =>
    simp only [newMixinsSpec]
    obtain ⟨b, hb, hbe⟩ := h x (List.mem_cons_self x rest)
    rw [if_pos (List.any_eq_true.mpr ⟨b, hb, hbe⟩)]
    exact ih (fun y hy => h y (List.mem_cons.mpr (Or.inr hy)))

/-- C6: with every supplied mixin convertible, `add_mixins` returns a new
reference with the same head, tail and cached type, whose mixin list is the
original's followed by exactly the supplied mixins not already present by
value (`newMixinsSpec`); the result stays duplicate-free, and adding the same
mixins a second time returns the same reference again (so in particular the
length is unchanged). -/
theorem add_mixins_append_dedup (r : JGDVCodeReference) (args : List MixArg)
    (p : Option Plugins) (env : PyEnv) (refs : List JGDVCodeReference)
    (h : convAll env p args = .ok refs) :
    add_mixins r args p env =
      .ok (.mk r.head r.tail (r.mixins ++ newMixinsSpec r.mixins refs) r.ty) ∧
    (List.Pairwise (fun a b => refEq a b = false) r.mixins →
      List.Pairwise (fun a b => refEq a b = false)
        (r.mixins ++ newMixinsSpec r.mixins refs)) ∧
    add_mixins
        (.mk r.head r.tail (r.mixins ++ newMixinsSpec r.mixins refs) r.ty)
        args p env =
      .ok (.mk r.head r.tail (r.mixins ++ newMixinsSpec r.mixins refs) r.ty) := by
  obtain ⟨hd, tl, ms, ty⟩ := r
  simp only [JGDVCodeReference.mixins, JGDVCodeReference.head,
    JGDVCodeReference.tail, JGDVCodeReference.ty]
  refine ⟨?_, fun hnd => newMixinsSpec_nodup refs ms hnd, ?_⟩
  · simp only [add_mixins, JGDVCodeReference.mixins, JGDVCodeReference.head,
      JGDVCodeReference.tail, JGDVCodeReference.ty,
      addMixinsLoop_eq_of_convAll env p args refs ms h]
  · simp only [add_mixins, JGDVCodeReference.mixins, JGDVCodeReference.head,
      JGDVCodeReference.tail, JGDVCodeReference.ty]
    rw [addMixinsLoop_eq_of_convAll env p args refs
      (ms ++ newMixinsSpec ms refs) h]
    rw [newMixinsSpec_nil_of_present refs (ms ++ newMixinsSpec ms refs)
      (fun x hx => newMixinsSpec_present refs ms x hx)]
    simp

/-- A mixin reference used by the C6 witness. -/
def mixA : JGDVCodeReference := .mk [['p']] [['A']] [] none

/-- A second mixin reference used by the C6 witness. -/
def mixB : JGDVCodeReference := .mk [['p']] [['B']] [] none

/-- A base reference used by witnesses. -/
def refBase : JGDVCodeReference := .mk [['p']] [['T']] [] none

/-- An empty runtime environment used by witnesses. -/
def envNil : PyEnv :=
  { moduleDefs := [], sysModules := [], execLog := [], types := [], nextId := 0 }

/-- Witness for C6: adding [A, A, B] to a reference with no mixins keeps one
copy of A; the result is duplicate-free and absorbs a repeated add. -/
theorem add_mixins_append_dedup_witness :
    add_mixins refBase [.ref mixA, .ref mixA, .ref mixB] none envNil =
      .ok (.mk refBase.head refBase.tail
        (refBase.mixins ++
          newMixinsSpec refBase.mixins [mixA, mixA, mixB]) refBase.ty) ∧
    (List.Pairwise (fun a b => refEq a b = false) refBase.mixins →
      List.Pairwise (fun a b => refEq a b = false)
        (refBase.mixins ++ newMixinsSpec refBase.mixins [mixA, mixA, mixB])) ∧
    add_mixins
        (.mk refBase.head refBase.tail
          (refBase.mixins ++ newMixinsSpec refBase.mixins [mixA, mixA, mixB])
          refBase.ty)
        [.ref mixA, .ref mixA, .ref mixB] none envNil =
      .ok (.mk refBase.head refBase.tail
        (refBase.mixins ++ newMixinsSpec refBase.mixins [mixA, mixA, mixB])
        refBase.ty) :=
  add_mixins_append_dedup refBase [.ref mixA, .ref mixA, .ref mixB] none envNil
    [mixA, mixA, mixB] rfl

/-- C10: a string mixin supplied to `add_mixins` together with a plugins table
is resolved by alias lookup in the plugin group "mixin" (singular): when the
group is absent, or no record in it has `name` equal to the string, the string
itself is parsed as a literal reference; otherwise the first matching record's
`value` is parsed. -/
theorem add_mixins_string_alias_lookup (r : JGDVCodeReference) (s : PyStr)
    (P : Plugins) (env : PyEnv) :
    (add_mixins r [.str s] (some P) env =
      (from_alias s MIXIN_GROUP P).map (appendMixin r)) ∧
    (lookupGroup P MIXIN_GROUP = none →
      from_alias s MIXIN_GROUP P = _from_str s) ∧
    (∀ recs, lookupGroup P MIXIN_GROUP = some recs →
      recs.filter (fun x => decide (x.rname = s)) = [] →
      from_alias s MIXIN_GROUP P = _from_str s) ∧
    (∀ recs x xs, lookupGroup P MIXIN_GROUP = some recs →
      recs.filter (fun y => decide (y.rname = s)) = x :: xs →
      from_alias s MIXIN_GROUP P = _from_str x.rvalue) := by
  refine ⟨?_, ?_, ?_, ?_⟩
  · obtain ⟨hd, tl, ms, ty⟩ := r
    rcases hfa : from_alias s MIXIN_GROUP P with e | m
    · simp [add_mixins, addMixinsLoop, convMixin, hfa, Except.map]
    · simp [add_mixins, addMixinsLoop, convMixin, hfa, Except.map, appendMixin,
        JGDVCodeReference.mixins, JGDVCodeReference.head,
        JGDVCodeReference.tail, JGDVCodeReference.ty]
  · intro hnone
    simp [from_alias, hnone]
  · intro recs hsome hfilter
    simp [from_alias, hsome, hfilter]
  · intro recs x xs hsome hfilter
    simp [from_alias, hsome, hfilter]

/-- The plugin record used by the C10 witness. -/
def recW : Record := { rname := ['a'], rvalue := ['p', ':', 'M'] }

/-- The plugins table used by the C10 witness: a "mixin" group with one
record. -/
def plugW : Plugins := [(MIXIN_GROUP, [recW])]

/-- Witness for C10: with a "mixin" group holding a record named "a", the
string mixin "a" resolves through that record's value. -/
theorem add_mixins_string_alias_lookup_witness :
    add_mixins refBase [.str ['a']] (some plugW) envNil =
      (from_alias ['a'] MIXIN_GROUP plugW).map (appendMixin refBase) ∧
    from_alias ['a'] MIXIN_GROUP plugW = _from_str recW.rvalue :=
  ⟨(add_mixins_string_alias_lookup refBase ['a'] plugW envNil).1,
   (add_mixins_string_alias_lookup refBase ['a'] plugW envNil).2.2.2
     [recW] recW [] rfl rfl⟩

/-- The `__bases__` of the class with id `i`. -/
def basesOf (env : PyEnv) (i : Nat) : List Nat :=
  match lookupType env i with
  | some t => t.bases
  | none => []

/-- Freshness of the id counter: every key of the type table is below it. -/
def typeIdsBelow (env : PyEnv) : Bool :=
  env.types.all (fun p => decide (p.1 < env.nextId))

theorem allTypeIds_append_type (objs : List PyObj) (ids : List Nat) (t : Nat)
    (h : allTypeIds objs = some ids) :
    allTypeIds (objs ++ [.type t]) = some (ids ++ [t]) := by
  induction objs generalizing ids with
  | nil =>
    simp only [allTypeIds] at h
    cases h
    rfl
  | cons o rest ih =>
    simp only [allTypeIds] at h ⊢
    rcases ho : typeIdOf o with _ | i
    · rw [ho] at h; exact absurd h (by simp)
    · rw [ho] at h
      rcases hr : allTypeIds rest with _ | is
      · rw [hr] at h; exact absurd h (by simp)
      · rw [hr] at h
        cases h
        simp only [List.append_eq]
        rw [ih is hr]
        rfl

theorem lookupType_go_append_fresh (l : List (Nat × PyTypeInfo)) (n : Nat)
    (info : PyTypeInfo) (h : ∀ p ∈ l, p.1 ≠ n) :
    lookupType.go n (l ++ [(n, info)]) = some info := by
  induction l with
  | nil => simp [lookupType.go]
  | cons q rest ih =>
    simp only [List.cons_append, lookupType.go]
    rw [if_neg (h q (List.mem_cons_self q rest))]
    exact ih (fun p hp => h p (List.mem_cons.mpr (Or.inr hp)))

theorem lookupType_go_none_of_fresh (l : List (Nat × PyTypeInfo)) (n : Nat)
    (h : ∀ p ∈ l, p.1 ≠ n) : lookupType.go n l = none := by
  induction l with
  | nil => rfl
  | cons q rest ih =>
    simp only [lookupType.go]
    rw [if_neg (h q (List.mem_cons_self q rest))]
    exact ih (fun p hp => h p (List.mem_cons.mpr (Or.inr hp)))

theorem typeIdsBelow_fresh (env : PyEnv) (h : typeIdsBelow env = true) :
    ∀ p ∈ env.types, p.1 ≠ env.nextId := by
  intro p hp
  have := List.all_eq_true.mp h p hp
  have hlt : p.1 < env.nextId := of_decide_eq_true this
  omega

/-- C2 (amended): when the mixin list is non-empty, every part resolves to a
class, and the bases (the resolved mixins then the target) are duplicate-free
with a consistent C3 linearization, `try_import` returns a newly synthesized
class (its id unused in the type table) whose base classes are exactly the
resolved mixins in list order followed by the resolved primary target as the
last base.  (Without the two extra hypotheses `type()` raises `TypeError`, per
the counterexample.) -/
theorem try_import_composite_bases
    (head tail : List PyStr) (ms : List JGDVCodeReference) (ty : Option Nat)
    (env env₁ env₂ : PyEnv) (tgt : PyObj) (objs : List PyObj)
    (ids lin : List Nat) (tid : Nat)
    (hne : ms ≠ [])
    (hres : resolveTarget (.mk head tail ms ty) env = .ok (tgt, env₁))
    (hmix : try_import_list ms env₁ = .ok (objs, env₂))
    (hids : allTypeIds objs = some ids)
    (htgt : tgt = .type tid)
    (hdup : hasDupB (ids ++ [tid]) = false)
    (hc3 : c3Merge ((ids ++ [tid]).map (mroOf env₂) ++ [ids ++ [tid]]) =
      some lin)
    (hfresh : typeIdsBelow env₂ = true) :
    ∃ envF, try_import (.mk head tail ms ty) none env =
        .ok (.type env₂.nextId, envF) ∧
      lookupType env₂ env₂.nextId = none ∧
      basesOf envF env₂.nextId = ids ++ [tid] := by
  subst htgt
  have hsynth : synthType env₂ objs (.type tid) =
      .ok (.type env₂.nextId,
           { env₂ with nextId := env₂.nextId + 1,
                       types := env₂.types ++
                         [(env₂.nextId,
                           { tname := GEN_MARK ++ pyNameOf env₂ (.type tid),
                             tmodule := [],
                             bases := ids ++ [tid],
                             mro := env₂.nextId :: lin,
                             attrs := [] })]}) := by
    simp only [synthType, allTypeIds_append_type objs ids tid hids, hdup,
      Bool.false_eq_true, if_false, hc3]
  apply Exists.intro
    ({ env₂ with nextId := env₂.nextId + 1,
                 types := env₂.types ++
                   [(env₂.nextId,
                     { tname := GEN_MARK ++ pyNameOf env₂ (.type tid),
                       tmodule := [],
                       bases := ids ++ [tid],
                       mro := env₂.nextId :: lin,
                       attrs := [] })]} : PyEnv)
  refine ⟨?_, ?_, ?_⟩
  · rw [try_import_eq]
    simp only [resolveFull, JGDVCodeReference.mixins, hres,
      List.isEmpty_eq_true, hne, if_false, hmix, hsynth, ensureCheck,
      catchImport]
  · simp only [lookupType]
    exact lookupType_go_none_of_fresh env₂.types env₂.nextId
      (typeIdsBelow_fresh env₂ hfresh)
  · simp only [basesOf, lookupType]
    rw [lookupType_go_append_fresh env₂.types env₂.nextId _
      (typeIdsBelow_fresh env₂ hfresh)]

/-- A runtime environment with three classes M1 (id 0), M2 (id 1), T (id 2). -/
def envM : PyEnv :=
  { moduleDefs := [], sysModules := [], execLog := [],
    types :=
      [(0, { tname := ['M', '1'], tmodule := ['p'], bases := [], mro := [0],
             attrs := [] }),
       (1, { tname := ['M', '2'], tmodule := ['p'], bases := [], mro := [1],
             attrs := [] }),
       (2, { tname := ['T'], tmodule := ['p'], bases := [], mro := [2],
             attrs := [] })],
    nextId := 3 }

/-- A reference to class M1 with the resolved type cached. -/
def mix1 : JGDVCodeReference := .mk [['p']] [['M', '1']] [] (some 0)

/-- A reference to class M2 with the resolved type cached. -/
def mix2 : JGDVCodeReference := .mk [['p']] [['M', '2']] [] (some 1)

/-- Witness for the amended C2: a reference to T with mixins [M1, M2] (all
unrelated root classes, so the linearization is consistent) resolves to a
fresh class with bases (M1, M2, T), i.e. ids [0, 1] ++ [2]. -/
theorem try_import_composite_bases_witness :
    ∃ envF, try_import (.mk [['p']] [['T']] [mix1, mix2] (some 2)) none envM =
        .ok (.type envM.nextId, envF) ∧
      lookupType envM envM.nextId = none ∧
      basesOf envF envM.nextId = [0, 1] ++ [2] :=
  try_import_composite_bases [['p']] [['T']] [mix1, mix2] (some 2)
    envM envM envM (.type 2) [.type 0, .type 1] [0, 1] [0, 1, 2] 2
    (by simp)
    rfl
    (by simp [try_import_list, try_import, mix1, mix2, resolveTarget,
          catchImport, ensureCheck, JGDVCodeReference.ty,
          JGDVCodeReference.mixins])
    rfl
    rfl
    (by decide)
    (by decide)
    (by decide)

/-- A hierarchy with a subclass pair: Bb (id 0) derives from Ab (id 2), Cb
(id 1) derives from Bb, and Tb (id 3) is an unrelated root target. -/
def envMC : PyEnv :=
  { moduleDefs := [], sysModules := [], execLog := [],
    types :=
      [(0, { tname := ['B'], tmodule := ['p'], bases := [2], mro := [0, 2],
             attrs := [] }),
       (1, { tname := ['C'], tmodule := ['p'], bases := [0], mro := [1, 0, 2],
             attrs := [] }),
       (2, { tname := ['A'], tmodule := ['p'], bases := [], mro := [2],
             attrs := [] }),
       (3, { tname := ['T'], tmodule := ['p'], bases := [], mro := [3],
             attrs := [] })],
    nextId := 4 }

/-- A cached reference to class Bb of `envMC`. -/
def mixBsub : JGDVCodeReference := .mk [['p']] [['B']] [] (some 0)

/-- A cached reference to class Cb of `envMC`. -/
def mixCsub : JGDVCodeReference := .mk [['p']] [['C']] [] (some 1)

/-- C2 counterexample: with mixins [B, C] where C subclasses B, every part
resolves to a class, yet `type("DootGenerated:...", (B, C, T), {})` cannot
build a consistent method resolution order (B precedes its own subclass C in
the bases), so CPython raises `TypeError` and `try_import` propagates it — no
composite type with bases (B, C, T) is returned, contrary to the claim. -/
theorem try_import_mro_conflict_typeerror :
    try_import (.mk [['p']] [['T']] [mixBsub, mixCsub] (some 3)) none envMC =
      .error (.typeError .mroConflict) := by
  simp [try_import, try_import_list, mixBsub, mixCsub, envMC, resolveTarget,
    synthType, catchImport, ensureCheck, JGDVCodeReference.ty, allTypeIds,
    typeIdOf, mroOf, lookupType, lookupType.go, hasDupB, c3Merge, c3MergeFuel,
    c3PickHead, c3Remove, inTailOfAny]

theorem catchImport_ok {α : Type} (s : PyStr) (x : Except PyErr α) (y : α)
    (h : catchImport s x = .ok y) : x = .ok y := by
  rcases x with e | v
  · rcases e <;> simp [catchImport] at h
  · simpa [catchImport] using h

theorem importModule_ok (env : PyEnv) (n : PyStr) (m : PyObj) (env' : PyEnv)
    (h : importModule env n = .ok (m, env')) :
    m = .module n ∧ n ∈ env'.sysModules := by
  unfold importModule at h
  by_cases hmem : n ∈ env.sysModules
  · rw [if_pos hmem] at h
    cases h
    exact ⟨rfl, hmem⟩
  · rw [if_neg hmem] at h
    rcases hf : assocFind n env.moduleDefs with _ | attrs
    · rw [hf] at h
      exact absurd h (by simp)
    · rw [hf] at h
      cases h
      refine ⟨rfl, ?_⟩
      simp

theorem importModule_cached (env : PyEnv) (n : PyStr) (h : n ∈ env.sysModules) :
    importModule env n = .ok (.module n, env) := by
  unfold importModule
  rw [if_pos h]

theorem resolveTarget_stable (r : JGDVCodeReference) (env env₁ : PyEnv)
    (v : PyObj) (h : resolveTarget r env = .ok (v, env₁)) :
    resolveTarget r env₁ = .ok (v, env₁) := by
  obtain ⟨hd, tl, ms, ty⟩ := r
  cases ty with
  | some t =>
    have h' : (Except.ok ((PyObj.type t : PyObj), env) :
        Except PyErr (PyObj × PyEnv)) = .ok (v, env₁) := h
    injection h' with hp
    injection hp with h1 h2
    subst h1
    subst h2
    exact h
  | none =>
    have h' : (match importModule env (pyJoin SUB_SEP hd) with
               | .error e => .error e
               | .ok (modObj, envA) =>
                 match getattrWalk envA modObj tl with
                 | .ok w => Except.ok (w, envA)
                 | .error e => .error e) = Except.ok (v, env₁) := h
    rcases him : importModule env (pyJoin SUB_SEP hd) with e | ⟨mod, env₂⟩
    · rw [him] at h'
      exact absurd h' (by simp)
    · rw [him] at h'
      have h2 : (match getattrWalk env₂ mod tl with
                 | .ok w => Except.ok (w, env₂)
                 | .error e => .error e) = Except.ok (v, env₁) := h'
      rcases hw : getattrWalk env₂ mod tl with e | w
      · rw [hw] at h2
        exact absurd h2 (by simp)
      · rw [hw] at h2
        have h3 : (Except.ok (w, env₂) : Except PyErr (PyObj × PyEnv)) =
            .ok (v, env₁) := h2
        injection h3 with hp
        injection hp with h4 h5
        subst h4
        subst h5
        obtain ⟨hmod, hmem⟩ :=
          importModule_ok env (pyJoin SUB_SEP hd) mod env₂ him
        subst hmod
        show (match importModule env₂ (pyJoin SUB_SEP hd) with
              | .error e => .error e
              | .ok (modObj, envA) =>
                match getattrWalk envA modObj tl with
                | .ok u => Except.ok (u, envA)
                | .error e => .error e) = Except.ok (w, env₂)
        rw [importModule_cached env₂ (pyJoin SUB_SEP hd) hmem]
        show (match getattrWalk env₂ (.module (pyJoin SUB_SEP hd)) tl with
              | .ok u => Except.ok (u, env₂)
              | .error e => .error e) = Except.ok (w, env₂)
        rw [hw]

theorem resolveFull_no_mixins (r : JGDVCodeReference) (env : PyEnv)
    (hm : r.mixins = []) : resolveFull r env = resolveTarget r env := by
  unfold resolveFull
  rcases h : resolveTarget r env with e | ⟨c, e1⟩
  · rfl
  · simp [hm]

/-- C1 (amended): `try_import` never writes the `_type` cache; for a reference
with an empty mixin list a second call returns the identical object and leaves
the runtime state untouched (in particular no module body is re-executed,
because the first successful call left the module in `sys.modules`). -/
theorem try_import_idempotent_without_mixins (r : JGDVCodeReference)
    (env env₁ : PyEnv) (v : PyObj)
    (hm : r.mixins = [])
    (h1 : try_import r none env = .ok (v, env₁)) :
    try_import r none env₁ = .ok (v, env₁) := by
  rw [try_import_eq] at h1 ⊢
  rw [resolveFull_no_mixins r env hm] at h1
  rw [resolveFull_no_mixins r env₁ hm]
  have h1' := catchImport_ok (strOf r) _ _ h1
  rcases hres : resolveTarget r env with e | ⟨c, e2⟩
  · rw [hres] at h1'
    exact absurd h1' (by simp)
  · rw [hres] at h1'
    simp only [ensureCheck] at h1'
    cases h1'
    rw [resolveTarget_stable r env _ _ hres]
    simp [ensureCheck, catchImport]

/-- The module table for the C1 amended witness: module "p" exposing a
non-class attribute "T". -/
def envS0 : PyEnv :=
  { moduleDefs := [(['p'], [(['T'], .other 7 0)])],
    sysModules := [], execLog := [], types := [], nextId := 0 }

/-- The state after the first `try_import` over `envS0`: "p" imported once. -/
def envS1 : PyEnv :=
  { moduleDefs := [(['p'], [(['T'], .other 7 0)])],
    sysModules := [['p']], execLog := [['p']], types := [], nextId := 0 }

/-- Witness for the amended C1: after the first call resolved "p:T" to the
same object, the second call returns it again with the state unchanged. -/
theorem try_import_idempotent_without_mixins_witness :
    try_import (.mk [['p']] [['T']] [] none) none envS1 =
      .ok (.other 7 0, envS1) :=
  try_import_idempotent_without_mixins (.mk [['p']] [['T']] [] none)
    envS0 envS1 (.other 7 0) rfl
    (by simp [try_import, resolveTarget, importModule, getattrWalk, getattrOne,
          assocFind, catchImport, ensureCheck, envS0, envS1,
          JGDVCodeReference.ty, JGDVCodeReference.mixins,
          JGDVCodeReference.tail, JGDVCodeReference.moduleStr,
          JGDVCodeReference.head, pyJoin, SUB_SEP])

/-- C1 counterexample: for a reference carrying a mixin, the second
`try_import` call synthesizes a fresh composite class — the two calls return
different objects (ids 3 and 4), and nothing was cached in between. -/
theorem try_import_second_call_differs :
    (try_import (.mk [['p']] [['T']] [mix1] (some 2)) none envM).map Prod.fst =
      .ok (.type 3) ∧
    ((try_import (.mk [['p']] [['T']] [mix1] (some 2)) none envM).bind
        (fun p => try_import (.mk [['p']] [['T']] [mix1] (some 2)) none p.2)).map
      Prod.fst = .ok (.type 4) := by
  constructor <;>
    simp [try_import, try_import_list, mix1, envM, resolveTarget, synthType,
      catchImport, ensureCheck, JGDVCodeReference.ty, allTypeIds, typeIdOf,
      Except.map, Except.bind, mroOf, lookupType, lookupType.go, pyNameOf,
      typeNameOf, GEN_MARK, hasDupB, c3Merge, c3MergeFuel, c3PickHead,
      c3Remove, inTailOfAny]

/-- A runtime environment whose module "m" exposes a non-class attribute "f"
(an object of class 5), plus an unrelated expected class 9. -/
def envC5 : PyEnv :=
  { moduleDefs := [(['m'], [(['f'], .other 0 5)])],
    sysModules := [], execLog := [],
    types :=
      [(5, { tname := ['F'], tmodule := ['m'], bases := [], mro := [5],
             attrs := [] }),
       (9, { tname := ['E'], tmodule := ['m'], bases := [], mro := [9],
             attrs := [] })],
    nextId := 10 }

/-- C5 counterexample: when the resolved object is not a class and not an
instance of the expected type, the claim says an import error is raised, but
`issubclass(curr, ensure)` raises `TypeError: issubclass() arg 1 must be a
class`, which is not an `ImportError` and is not caught by the handler. -/
theorem try_import_ensure_nonclass_typeerror :
    try_import (.mk [['m']] [['f']] [] none) (some 9) envC5 =
      .error (.typeError .issubclassArg) := by
  simp [try_import, resolveTarget, importModule, getattrWalk, getattrOne,
    assocFind, catchImport, ensureCheck, isinstanceB, issubclassE, mroOf,
    lookupType, lookupType.go, envC5, JGDVCodeReference.ty,
    JGDVCodeReference.mixins, JGDVCodeReference.moduleStr,
    JGDVCodeReference.head, JGDVCodeReference.tail, pyJoin, SUB_SEP]

/-- C5 (amended): `try_import` fails synchronously as follows — a missing
module yields an import error whose payload is the full reference string
(which begins with the module name); a missing attribute along the walk yields
an import error naming the full reference; a resolved class failing the
supplied `ensure` check yields an import error citing the mismatch (the
non-class case instead raises a type error, per the counterexample). -/
theorem try_import_failure_modes :
    (∀ (head tail : List PyStr) (ms : List JGDVCodeReference) (env : PyEnv)
       (ensure : Option Nat),
      pyJoin SUB_SEP head ∉ env.sysModules →
      assocFind (pyJoin SUB_SEP head) env.moduleDefs = none →
      try_import (.mk head tail ms none) ensure env =
        .error (.importError .moduleNotFound
          [strOf (.mk head tail ms none)]) ∧
      ∃ restStr, strOf (.mk head tail ms none) =
        pyJoin SUB_SEP head ++ restStr) ∧
    (∀ (head tail : List PyStr) (ms : List JGDVCodeReference)
       (env env₁ : PyEnv) (modObj : PyObj) (attr : PyStr) (ensure : Option Nat),
      importModule env (pyJoin SUB_SEP head) = .ok (modObj, env₁) →
      getattrWalk env₁ modObj tail = .error (.attributeError attr) →
      try_import (.mk head tail ms none) ensure env =
        .error (.importError .attemptedImport
          [strOf (.mk head tail ms none)])) ∧
    (∀ (r : JGDVCodeReference) (env env₂ : PyEnv) (i e : Nat),
      resolveFull r env = .ok (.type i, env₂) →
      e ∉ mroOf env₂ i →
      try_import r (some e) env =
        .error (.importError .notCorrectType
          [strOf r, typeNameOf env₂ e])) := by
  refine ⟨?_, ?_, ?_⟩
  · intro head tail ms env ensure h1 h2
    have hrt : resolveTarget (.mk head tail ms none) env =
        .error (.moduleNotFoundError (pyJoin SUB_SEP head)) := by
      show (match importModule env (pyJoin SUB_SEP head) with
            | .error e => .error e
            | .ok (modObj, envA) =>
              match getattrWalk envA modObj tail with
              | .ok w => Except.ok (w, envA)
              | .error e => .error e) =
          (Except.error (PyErr.moduleNotFoundError (pyJoin SUB_SEP head)) :
            Except PyErr (PyObj × PyEnv))
      rw [show importModule env (pyJoin SUB_SEP head) =
            .error (.moduleNotFoundError (pyJoin SUB_SEP head)) from by
          unfold importModule
          rw [if_neg h1, h2]]
    constructor
    · rw [try_import_eq]
      rw [show resolveFull (.mk head tail ms none) env =
            .error (.moduleNotFoundError (pyJoin SUB_SEP head)) from by
          unfold resolveFull
          rw [hrt]]
      rfl
    · refine ⟨IMPORT_SEP ++ pyJoin SUB_SEP tail, ?_⟩
      simp [strOf, JGDVCodeReference.moduleStr, JGDVCodeReference.valueStr,
        JGDVCodeReference.head, JGDVCodeReference.tail]
  · intro head tail ms env env₁ modObj attr ensure him hw
    have hrt : resolveTarget (.mk head tail ms none) env =
        .error (.attributeError attr) := by
      show (match importModule env (pyJoin SUB_SEP head) with
            | .error e => .error e
            | .ok (modObj, envA) =>
              match getattrWalk envA modObj tail with
              | .ok w => Except.ok (w, envA)
              | .error e => .error e) =
          (Except.error (PyErr.attributeError attr) :
            Except PyErr (PyObj × PyEnv))
      rw [him]
      show (match getattrWalk env₁ modObj tail with
            | .ok w => Except.ok (w, env₁)
            | .error e => .error e) =
          (Except.error (PyErr.attributeError attr) :
            Except PyErr (PyObj × PyEnv))
      rw [hw]
    rw [try_import_eq]
    rw [show resolveFull (.mk head tail ms none) env =
          .error (.attributeError attr) from by
        unfold resolveFull
        rw [hrt]]
    rfl
  · intro r env env₂ i e hrf hmro
    rw [try_import_eq, hrf]
    have hec : ensureCheck env₂ (.type i) (some e) (strOf r) =
        .error (.importError .notCorrectType [strOf r, typeNameOf env₂ e]) := by
      simp [ensureCheck, isinstanceB, issubclassE, hmro]
    show catchImport (strOf r)
        (match ensureCheck env₂ (.type i) (some e) (strOf r) with
         | .error e => .error e
         | .ok v => Except.ok (v, env₂)) =
      .error (.importError .notCorrectType [strOf r, typeNameOf env₂ e])
    rw [hec]
    rfl

/-- Witness for the amended C5 at the unimportable reference "q:X". -/
theorem try_import_failure_modes_witness :
    try_import (.mk [['q']] [['X']] [] none) none envNil =
      .error (.importError .moduleNotFound
        [strOf (.mk [['q']] [['X']] [] none)]) ∧
    ∃ restStr, strOf (.mk [['q']] [['X']] [] none) =
      pyJoin SUB_SEP [['q']] ++ restStr :=
  try_import_failure_modes.1 [['q']] [['X']] [] envNil none
    (by simp [envNil]) rfl

theorem mem_insertAscBy (key : Nat → Nat) (x y : Nat) (l : List Nat) :
    y ∈ insertAscBy key x l ↔ y = x ∨ y ∈ l := by
  induction l with
  | nil => simp [insertAscBy]
  | cons a rest ih =>
    simp only [insertAscBy]
    by_cases h : key x ≤ key a
    · rw [if_pos h]
      simp
    · rw [if_neg h]
      simp only [List.mem_cons, ih]
      tauto

theorem mem_sortAscBy (key : Nat → Nat) (x : Nat) (l : List Nat) :
    x ∈ sortAscBy key l ↔ x ∈ l := by
  induction l with
  | nil => simp [sortAscBy]
  | cons a rest ih => simp [sortAscBy, mem_insertAscBy, ih]

theorem insertAscBy_perm (key : Nat → Nat) (x : Nat) (l : List Nat) :
    List.Perm (insertAscBy key x l) (x :: l) := by
  induction l with
  | nil => exact List.Perm.refl _
  | cons a rest ih =>
    simp only [insertAscBy]
    by_cases h : key x ≤ key a
    · rw [if_pos h]
    · rw [if_neg h]
      exact (ih.cons a).trans (List.Perm.swap x a rest)

theorem sortAscBy_perm (key : Nat → Nat) (l : List Nat) :
    List.Perm (sortAscBy key l) l := by
  induction l with
  | nil => exact List.Perm.refl _
  | cons a rest ih =>
    exact (insertAscBy_perm key a (sortAscBy key rest)).trans (ih.cons a)

theorem pairwise_insertAscBy (key : Nat → Nat) (x : Nat) (l : List Nat)
    (h : List.Pairwise (fun a b => key a ≤ key b) l) :
    List.Pairwise (fun a b => key a ≤ key b) (insertAscBy key x l) := by
  induction l with
  | nil => simp [insertAscBy]
  | cons a rest ih =>
    simp only [insertAscBy]
    by_cases hx : key x ≤ key a
    · rw [if_pos hx]
      constructor
      · intro b hb
        rcases List.mem_cons.mp hb with rfl | hb
        · exact hx
        · exact le_trans hx ((List.pairwise_cons.mp h).1 b hb)
      · exact h
    · rw [if_neg hx]
      constructor
      · intro b hb
        rcases (mem_insertAscBy key x b rest).mp hb with rfl | hb
        · omega
        · exact (List.pairwise_cons.mp h).1 b hb
      · exact ih (List.pairwise_cons.mp h).2

theorem pairwise_sortAscBy (key : Nat → Nat) (l : List Nat) :
    List.Pairwise (fun a b => key a ≤ key b) (sortAscBy key l) := by
  induction l with
  | nil => simp [sortAscBy]
  | cons a rest ih => exact pairwise_insertAscBy key a _ ih

/-- Decidable check of mro reflexivity over the type table. -/
def mroReflexiveB (env : PyEnv) : Bool :=
  env.types.all (fun p => decide (p.1 ∈ mroOf env p.1))

/-- Decidable check of mro ancestor-closure over the type table. -/
def mroClosedB (env : PyEnv) : Bool :=
  env.types.all (fun p =>
    p.2.mro.all (fun j =>
      (mroOf env j).all (fun k => decide (k ∈ p.2.mro))))

theorem lookupType_go_mem (l : List (Nat × PyTypeInfo)) (i : Nat)
    (info : PyTypeInfo) (h : lookupType.go i l = some info) : (i, info) ∈ l := by
  induction l with
  | nil => simp [lookupType.go] at h
  | cons p rest ih =>
    obtain ⟨k, v⟩ := p
    simp only [lookupType.go] at h
    by_cases hk : k = i
    · rw [if_pos hk] at h
      cases h
      subst hk
      exact List.mem_cons_self _ _
    · rw [if_neg hk] at h
      exact List.mem_cons.mpr (Or.inr (ih h))

theorem mroWF_of_checks (env : PyEnv) (h1 : mroReflexiveB env = true)
    (h2 : mroClosedB env = true) : mroWF env := by
  constructor
  · intro i hi
    rcases hlk : lookupType env i with _ | info
    · rw [hlk] at hi
      simp at hi
    · have hmem : (i, info) ∈ env.types :=
        lookupType_go_mem env.types i info hlk
      exact of_decide_eq_true (List.all_eq_true.mp h1 (i, info) hmem)
  · intro i j hj k hk
    rcases hlk : lookupType env i with _ | info
    · rw [mroOf, hlk] at hj
      simp at hj
    · have hmem : (i, info) ∈ env.types :=
        lookupType_go_mem env.types i info hlk
      have hmro : mroOf env i = info.mro := by rw [mroOf, hlk]
      rw [hmro] at hj ⊢
      have h3 := List.all_eq_true.mp (List.all_eq_true.mp h2 (i, info) hmem) j hj
      exact of_decide_eq_true (List.all_eq_true.mp h3 k hk)

theorem greedyMinimal_eq_coverSpec (env : PyEnv) (hwf : mroWF env)
    (l : List Nat) (hl : ∀ i ∈ l, (lookupType env i).isSome)
    (sel : List Nat) :
    greedyMinimal env (sel.flatMap (mroOf env)) l = greedyCoverSpec env sel l := by
  induction l generalizing sel with
  | nil => rfl
  | cons t rest ih =>
    have hflat : (t ∈ sel.flatMap (mroOf env)) ↔ ∃ s ∈ sel, t ∈ mroOf env s := by
      simp
    have hcond : (t ∈ sel.flatMap (mroOf env)) ↔
        (sel.any (fun s =>
          (mroOf env t).all (fun u => decide (u ∈ mroOf env s))) = true) := by
      rw [hflat]
      constructor
      · rintro ⟨s, hs, hts⟩
        rw [List.any_eq_true]
        refine ⟨s, hs, ?_⟩
        rw [List.all_eq_true]
        intro u hu
        exact decide_eq_true (hwf.2 s t hts u hu)
      · intro h
        obtain ⟨s, hs, hall⟩ := List.any_eq_true.mp h
        rw [List.all_eq_true] at hall
        have ht : t ∈ mroOf env t :=
          hwf.1 t (hl t (List.mem_cons_self t rest))
        exact ⟨s, hs, of_decide_eq_true (hall t ht)⟩
    simp only [greedyMinimal, greedyCoverSpec]
    by_cases hmem : t ∈ sel.flatMap (mroOf env)
    · rw [if_pos hmem, if_pos (hcond.mp hmem)]
      exact ih (fun i hi => hl i (List.mem_cons.mpr (Or.inr hi))) sel
    · rw [if_neg hmem, if_neg (fun hc => hmem (hcond.mpr hc))]
      have heq : sel.flatMap (mroOf env) ++ mroOf env t =
          (sel ++ [t]).flatMap (mroOf env) := by
        simp
      rw [heq, ih (fun i hi => hl i (List.mem_cons.mpr (Or.inr hi))) (sel ++ [t])]

/-- C7: minimal-mixin computation resolves every mixin, iterates them in
descending mro-length order (the reversed stable ascending sort — a
permutation of the resolved classes), keeps exactly those whose entire
ancestor set is not yet covered by a previously selected mixin's ancestor set
(`greedyCoverSpec`), and converts the kept classes back to references. -/
theorem calculate_minimal_mixins_spec (r : JGDVCodeReference)
    (env env' : PyEnv) (objs : List PyObj) (ids : List Nat)
    (hmix : try_import_list r.mixins env = .ok (objs, env'))
    (hids : allTypeIds objs = some ids)
    (hwf : mroWF env')
    (hvalid : ∀ i ∈ ids, (lookupType env' i).isSome) :
    _calculate_minimal_mixins r env =
      .ok ((greedyCoverSpec env' []
          ((sortAscBy (fun i => (mroOf env' i).length) ids).reverse)).map
        (buildFromType env'), env') ∧
    List.Perm ((sortAscBy (fun i => (mroOf env' i).length) ids).reverse) ids ∧
    List.Pairwise (fun a b => (mroOf env' b).length ≤ (mroOf env' a).length)
      ((sortAscBy (fun i => (mroOf env' i).length) ids).reverse) := by
  refine ⟨?_, ?_, ?_⟩
  · unfold _calculate_minimal_mixins
    rw [hmix]
    show ((match allTypeIds objs with
           | none => Except.error (.attributeError ('m' :: 'r' :: 'o' :: []))
           | some ids2 =>
             .ok ((greedyMinimal env' []
               ((sortAscBy (fun i => (mroOf env' i).length) ids2).reverse)).map
                 (buildFromType env'), env')) :
          Except PyErr (List JGDVCodeReference × PyEnv)) = _
    rw [hids]
    show Except.ok ((greedyMinimal env' []
        ((sortAscBy (fun i => (mroOf env' i).length) ids).reverse)).map
          (buildFromType env'), env') = _
    have hg := greedyMinimal_eq_coverSpec env' hwf
        ((sortAscBy (fun i => (mroOf env' i).length) ids).reverse)
        (fun i hi => hvalid i
          ((mem_sortAscBy _ i ids).mp (List.mem_reverse.mp hi))) []
    have hg2 : greedyMinimal env' []
        ((sortAscBy (fun i => (mroOf env' i).length) ids).reverse) =
        greedyCoverSpec env' []
          ((sortAscBy (fun i => (mroOf env' i).length) ids).reverse) := hg
    rw [hg2]
  · exact (List.reverse_perm _).trans (sortAscBy_perm _ ids)
  · rw [List.pairwise_reverse]
    exact pairwise_sortAscBy (fun i => (mroOf env' i).length) ids

/-- A class hierarchy for the C7 witness: A (id 2) is a root, B (id 0)
derives from A, C (id 1) derives from B — so C's ancestor set strictly
contains B's. -/
def envB : PyEnv :=
  { moduleDefs := [], sysModules := [], execLog := [],
    types :=
      [(0, { tname := ['B'], tmodule := ['p'], bases := [2], mro := [0, 2],
             attrs := [] }),
       (1, { tname := ['C'], tmodule := ['p'], bases := [0], mro := [1, 0, 2],
             attrs := [] }),
       (2, { tname := ['A'], tmodule := ['p'], bases := [], mro := [2],
             attrs := [] })],
    nextId := 3 }

/-- A cached reference to class B. -/
def refB : JGDVCodeReference := .mk [['p']] [['B']] [] (some 0)

/-- A cached reference to class C. -/
def refC : JGDVCodeReference := .mk [['p']] [['C']] [] (some 1)

/-- A reference whose mixins are [B, C]. -/
def refBC : JGDVCodeReference := .mk [['p']] [['T']] [refB, refC] none

/-- Witness for C7 over mixins [B, C]: the longer-chain C is kept and the
subsumed B dropped, so the minimal set is exactly [C] (id 1). -/
theorem calculate_minimal_mixins_spec_witness :
    (_calculate_minimal_mixins refBC envB =
      .ok ((greedyCoverSpec envB []
          ((sortAscBy (fun i => (mroOf envB i).length) [0, 1]).reverse)).map
        (buildFromType envB), envB) ∧
    List.Perm ((sortAscBy (fun i => (mroOf envB i).length) [0, 1]).reverse)
      [0, 1] ∧
    List.Pairwise (fun a b => (mroOf envB b).length ≤ (mroOf envB a).length)
      ((sortAscBy (fun i => (mroOf envB i).length) [0, 1]).reverse)) ∧
    greedyCoverSpec envB []
      ((sortAscBy (fun i => (mroOf envB i).length) [0, 1]).reverse) = [1] :=
  ⟨calculate_minimal_mixins_spec refBC envB envB [.type 0, .type 1] [0, 1]
    (by simp [try_import_list, try_import, refBC, refB, refC, resolveTarget,
          catchImport, ensureCheck, JGDVCodeReference.ty,
          JGDVCodeReference.mixins])
    rfl
    (mroWF_of_checks envB (by decide) (by decide))
    (by decide),
   by decide⟩
